import Mathlib

/-!
Shallow embedding of the blog application (src/app.py, src/forms.py).

The store is the three SQLAlchemy tables (users, blog_posts, comments),
each a list of rows in insertion order. The flask-login current user is
an `Option User` (`none` is the anonymous identity, whose
`is_authenticated` is false and which has no `id` attribute, so reading
`current_user.id` on it raises an AttributeError). Each route handler is
a function from the store, the current user and its inputs to a
`HandlerResult`: the persisted store after every commit that ran, the
flash messages pushed, and either the selected response or the Python
exception that escaped the handler.
-/

/-- A row of the users table (class User in src/app.py). -/
structure User where
  id : Nat
  email : String
  password : String
  name : String
deriving Repr, DecidableEq

/-- A row of the blog_posts table (class BlogPost in src/app.py). -/
structure BlogPost where
  id : Nat
  title : String
  subtitle : String
  date : String
  body : String
  author_id : Nat
  img_url : String
deriving Repr, DecidableEq

/-- A row of the comments table (class Comment in src/app.py). -/
structure Comment where
  id : Nat
  text : String
  comment_author_id : Nat
  parent_post_id : Nat
deriving Repr, DecidableEq

/-- The relational store: the three tables, rows in insertion order. -/
structure DB where
  users : List User
  posts : List BlogPost
  comments : List Comment
deriving Repr, DecidableEq

/-- A Python exception escaping a route handler. -/
inductive PyError where
  | attributeError : String → PyError
  | typeError : String → PyError
deriving Repr, DecidableEq

/-- The HTTP response a handler selects when it returns normally:
a rendered template, a redirect to a named endpoint, or an abort
with a status code (403 forbidden, 404 not found). -/
inductive Response where
  | rendered : String → Response
  | redirectTo : String → Response
  | aborted : Nat → Response
deriving Repr, DecidableEq

/-- Either a normal response or an escaping Python exception. -/
inductive Outcome where
  | ok : Response → Outcome
  | raised : PyError → Outcome
deriving Repr, DecidableEq

/-- Final state of one request: the persisted store after every commit
that ran (a commit that preceded an exception persists), the flash
messages pushed, and the outcome. -/
structure HandlerResult where
  db : DB
  flashes : List String
  outcome : Outcome
deriving Repr, DecidableEq

/-- The wtforms DataRequired validator: the field holds a nonempty value. -/
def DataRequired (s : String) : Bool := !s.isEmpty

/-- Model of the wtforms URL validator (third-party library code): the
field is an absolute http or https URL. The claims never depend on
which strings it accepts. -/
def URLvalid (s : String) : Bool :=
  "http://".data.isPrefixOf s.data || "https://".data.isPrefixOf s.data

/-- Model of werkzeug generate_password_hash (third-party library code):
an injective tagging standing in for the salted pbkdf2 hash. -/
def generate_password_hash (p : String) : String := "pbkdf2-sha256-" ++ p

/-- Autoincrement primary key assigned to the next inserted row. -/
def nextId (ids : List Nat) : Nat := ids.foldr max 0 + 1

/-- CreatePostForm (src/forms.py): title, subtitle, img_url, body, all
DataRequired, img_url also URL-validated. is_submitted models
FlaskForm.is_submitted (the request posts the form with a CSRF token). -/
structure CreatePostForm where
  is_submitted : Bool
  title : String
  subtitle : String
  img_url : String
  body : String
deriving Repr, DecidableEq

/-- FlaskForm.validate_on_submit for CreatePostForm. -/
def CreatePostForm.validate_on_submit (f : CreatePostForm) : Bool :=
  f.is_submitted && DataRequired f.title && DataRequired f.subtitle
    && DataRequired f.img_url && URLvalid f.img_url && DataRequired f.body

/-- RegisterForm (src/forms.py): email, password, name, all DataRequired. -/
structure RegisterForm where
  is_submitted : Bool
  email : String
  password : String
  name : String
deriving Repr, DecidableEq

/-- FlaskForm.validate_on_submit for RegisterForm. -/
def RegisterForm.validate_on_submit (f : RegisterForm) : Bool :=
  f.is_submitted && DataRequired f.email && DataRequired f.password
    && DataRequired f.name

/-- CommentForm (src/forms.py): one DataRequired comment field. -/
structure CommentForm where
  is_submitted : Bool
  comment : String
deriving Repr, DecidableEq

/-- FlaskForm.validate_on_submit for CommentForm. -/
def CommentForm.validate_on_submit (f : CommentForm) : Bool :=
  f.is_submitted && DataRequired f.comment

/-- The admin_only decorator (src/app.py lines 81-87). It reads
current_user.id first: on the anonymous identity that attribute does not
exist, an AttributeError. For a logged-in user it aborts 403 unless the
id is 1; otherwise it runs the wrapped handler. -/
def admin_only (db : DB) (cu : Option User) (f : User → HandlerResult) : HandlerResult :=
  match cu with
  | none => ⟨db, [], .raised (.attributeError "AnonymousUserMixin object has no attribute id")⟩
  | some u =>
    if u.id != 1 then ⟨db, [], .ok (.aborted 403)⟩
    else f u

/-- The only_commenter decorator (src/app.py lines 91-98). It selects the
first Comment whose comment_author_id equals current_user.id (an
AttributeError on the anonymous identity). When no such row exists the
guard dereferences the absent row: an AttributeError on None. Otherwise
it aborts 403 when the requester is unauthenticated or the selected
row has a different author id — a condition that is never true for the
selected row — and runs the wrapped handler. -/
def only_commenter (db : DB) (cu : Option User) (f : User → HandlerResult) : HandlerResult :=
  match cu with
  | none => ⟨db, [], .raised (.attributeError "AnonymousUserMixin object has no attribute id")⟩
  | some u =>
    match db.comments.find? (fun c => c.comment_author_id == u.id) with
    | none => ⟨db, [], .raised (.attributeError "NoneType object has no attribute comment_author_id")⟩
    | some c =>
      if u.id != c.comment_author_id then ⟨db, [], .ok (.aborted 403)⟩
      else f u

/-- The register route (src/app.py lines 101-127). On a valid submission
with a fresh email it inserts the new User and redirects to the post
list; with an email already present it flashes and redirects to login,
inserting nothing. -/
def register (db : DB) (cu : Option User) (form : RegisterForm) : HandlerResult :=
  if form.validate_on_submit then
    match db.users.find? (fun u => u.email == form.email) with
    | some _ => ⟨db, ["A user with that email already exists."], .ok (.redirectTo "login")⟩
    | none =>
      let new_user : User :=
        { id := nextId (db.users.map User.id)
          email := form.email
          password := generate_password_hash form.password
          name := form.name }
      ⟨{ db with users := db.users ++ [new_user] }, [], .ok (.redirectTo "get_all_posts")⟩
  else ⟨db, [], .ok (.rendered "register.html")⟩

/-- The show_post route (src/app.py lines 172-200). Missing post: 404.
A valid comment submission while anonymous flashes and redirects to
login without inserting; while authenticated it inserts the Comment and
falls through to render the post page. -/
def show_post (db : DB) (cu : Option User) (post_id : Nat) (form : CommentForm) : HandlerResult :=
  match db.posts.find? (fun p => p.id == post_id) with
  | none => ⟨db, [], .ok (.aborted 404)⟩
  | some requested_post =>
    if form.validate_on_submit then
      match cu with
      | none => ⟨db, ["You must login or register to comment."], .ok (.redirectTo "login")⟩
      | some u =>
        let new_comment : Comment :=
          { id := nextId (db.comments.map Comment.id)
            text := form.comment
            comment_author_id := u.id
            parent_post_id := requested_post.id }
        ⟨{ db with comments := db.comments ++ [new_comment] }, [], .ok (.rendered "post.html")⟩
    else ⟨db, [], .ok (.rendered "post.html")⟩

/-- The add_new_post route (src/app.py lines 203-219), wrapped by
admin_only; today is the strftime-formatted current date. -/
def add_new_post (db : DB) (cu : Option User) (form : CreatePostForm) (today : String) : HandlerResult :=
  admin_only db cu (fun u =>
    if form.validate_on_submit then
      let new_post : BlogPost :=
        { id := nextId (db.posts.map BlogPost.id)
          title := form.title
          subtitle := form.subtitle
          date := today
          body := form.body
          author_id := u.id
          img_url := form.img_url }
      ⟨{ db with posts := db.posts ++ [new_post] }, [], .ok (.redirectTo "get_all_posts")⟩
    else ⟨db, [], .ok (.rendered "make-post.html")⟩)

/-- The edit_post route (src/app.py lines 222-241), wrapped by
admin_only. Missing post: 404. On a valid submission the stored row with
this primary key gets the submitted title, subtitle, img_url and body,
and its author becomes current_user; the id and date columns are never
assigned, so they keep their stored values. -/
def edit_post (db : DB) (cu : Option User) (post_id : Nat) (form : CreatePostForm) : HandlerResult :=
  admin_only db cu (fun u =>
    match db.posts.find? (fun p => p.id == post_id) with
    | none => ⟨db, [], .ok (.aborted 404)⟩
    | some _post =>
      if form.validate_on_submit then
        ⟨{ db with posts := db.posts.map (fun p =>
            if p.id == post_id then
              { p with title := form.title, subtitle := form.subtitle,
                       img_url := form.img_url, author_id := u.id, body := form.body }
            else p) }, [], .ok (.redirectTo "show_post")⟩
      else ⟨db, [], .ok (.rendered "make-post.html")⟩)

/-- The delete_post route (src/app.py lines 244-249). No guard wraps it.
Missing post: 404. Otherwise the row is deleted and committed, and then
redirect is called with a logged_in keyword argument it does not accept:
a TypeError after the commit, so the deletion persists. -/
def delete_post (db : DB) (cu : Option User) (post_id : Nat) : HandlerResult :=
  match db.posts.find? (fun p => p.id == post_id) with
  | none => ⟨db, [], .ok (.aborted 404)⟩
  | some _ =>
    ⟨{ db with posts := db.posts.filter (fun p => p.id != post_id) }, [],
      .raised (.typeError "redirect got an unexpected keyword argument logged_in")⟩

/-- The delete_comment route (src/app.py lines 252-258), wrapped by
only_commenter. Missing comment: 404. Otherwise the row with this
primary key is deleted and the response redirects to the parent post. -/
def delete_comment (db : DB) (cu : Option User) (comment_id post_id : Nat) : HandlerResult :=
  only_commenter db cu (fun _ =>
    match db.comments.find? (fun c => c.id == comment_id) with
    | none => ⟨db, [], .ok (.aborted 404)⟩
    | some _ =>
      ⟨{ db with comments := db.comments.filter (fun c => c.id != comment_id) }, [],
        .ok (.redirectTo "show_post")⟩)

/-!
Helper lemmas shared by the claim theorems.
-/

/-- An existing row with a matching key makes the lookup succeed. -/
theorem find?_isSome_of_exists {α : Type} (l : List α) (p : α → Bool)
    (h : ∃ x ∈ l, p x = true) : (l.find? p).isSome := by
  rw [List.find?_isSome]
  obtain ⟨x, hx, hpx⟩ := h
  exact ⟨x, hx, hpx⟩

/-- Filtering away the rows with one key present exactly once (the table
has primary-key-unique ids) removes exactly one row. -/
theorem length_filter_ne_id (l : List Comment) (cid : Nat)
    (hnd : (l.map Comment.id).Nodup) (hex : ∃ c ∈ l, c.id = cid) :
    (l.filter (fun c => c.id != cid)).length + 1 = l.length := by
  induction l with
  | nil => simp at hex
  | cons a t ih =>
    rw [List.map_cons, List.nodup_cons] at hnd
    obtain ⟨ha, hndt⟩ := hnd
    by_cases hid : a.id = cid
    · have htf : t.filter (fun c => c.id != cid) = t := by
        rw [List.filter_eq_self]
        intro c hc
        have hne : c.id ≠ cid := by
          intro hcc
          exact ha (by rw [← hid] at hcc; exact hcc ▸ List.mem_map_of_mem Comment.id hc)
        simpa using hne
      simp [List.filter_cons, hid, htf]
    · have hext : ∃ c ∈ t, c.id = cid := by
        obtain ⟨c, hc, hcc⟩ := hex
        rcases List.mem_cons.mp hc with hc | hc
        · exact absurd (hc ▸ hcc) hid
        · exact ⟨c, hc, hcc⟩
      have hlen := ih hndt hext
      have hne : (a.id != cid) = true := by simpa using hid
      simp only [List.filter_cons, hne, if_pos, List.length_cons]
      omega

/-- Mutating the row a primary-key lookup found, through an update that
keeps the id, is found again by the same lookup. -/
theorem find?_map_update (l : List BlogPost) (pid : Nat) (post : BlogPost)
    (g : BlogPost → BlogPost) (hg : ∀ p, (g p).id = p.id)
    (hfind : l.find? (fun p => p.id == pid) = some post) :
    (l.map (fun p => if p.id == pid then g p else p)).find? (fun p => p.id == pid)
      = some (g post) := by
  induction l with
  | nil => simp at hfind
  | cons a t ih =>
    by_cases h : a.id = pid
    · have hpa : (fun x : BlogPost => x.id == pid) a = true := by simpa using h
      rw [List.find?_cons_of_pos (p := fun x : BlogPost => x.id == pid) t hpa] at hfind
      injection hfind with h1
      rw [← h1, List.map_cons]
      have hcond : (if (a.id == pid) = true then g a else a) = g a := by simp [h]
      rw [hcond]
      exact List.find?_cons_of_pos (p := fun x : BlogPost => x.id == pid) _ (by simp [hg, h])
    · have hpa : ¬ (fun x : BlogPost => x.id == pid) a = true := by simpa using h
      rw [List.find?_cons_of_neg (p := fun x : BlogPost => x.id == pid) t hpa] at hfind
      rw [List.map_cons]
      have hcond : (if (a.id == pid) = true then g a else a) = a := by simp [h]
      rw [hcond, List.find?_cons_of_neg (p := fun x : BlogPost => x.id == pid) _ hpa]
      exact ih hfind

/-- A row whose id differs from the mutated key survives the mutation
unchanged. -/
theorem mem_map_update (l : List BlogPost) (pid : Nat) (g : BlogPost → BlogPost)
    (q : BlogPost) (hq : q ∈ l) (hne : q.id ≠ pid) :
    q ∈ l.map (fun p => if p.id == pid then g p else p) := by
  have heq : (fun p => if p.id == pid then g p else p) q = q := by simp [hne]
  have := List.mem_map_of_mem (fun p => if p.id == pid then g p else p) hq
  rwa [heq] at this

/-!
Claim theorems.
-/

/-- C3: the administrator check used by the privileged routes (the
admin_only guard) lets a registered identity through exactly when its id
is 1, whatever its other attributes, and otherwise answers 403 forbidden
without running the handler. -/
theorem admin_only_iff_id_one (db : DB) (u : User) (f : User → HandlerResult) :
    admin_only db (some u) f =
      if u.id = 1 then f u else ⟨db, [], .ok (.aborted 403)⟩ := by
  by_cases h : u.id = 1 <;> simp [admin_only, h]

/-- C4: a create-post request by a registered identity other than the
administrator is answered 403 forbidden and leaves the store untouched,
whatever the submitted form data. -/
theorem add_new_post_nonadmin_forbidden (db : DB) (u : User) (h : u.id ≠ 1)
    (form : CreatePostForm) (today : String) :
    add_new_post db (some u) form today = ⟨db, [], .ok (.aborted 403)⟩ := by
  simp [add_new_post, admin_only, h]

/-- C4 witness: user 2 with a fully valid form is refused and no post
row appears. -/
theorem add_new_post_nonadmin_forbidden_witness :
    add_new_post ⟨[], [], []⟩ (some ⟨2, "b", "p", "B"⟩)
        ⟨true, "T", "S", "http://x", "Body"⟩ "May 01, 2020"
      = ⟨⟨[], [], []⟩, [], .ok (.aborted 403)⟩ :=
  add_new_post_nonadmin_forbidden ⟨[], [], []⟩ ⟨2, "b", "p", "B"⟩ (by decide)
    ⟨true, "T", "S", "http://x", "Body"⟩ "May 01, 2020"

/-- C9: on the create-post and edit-post routes the admin_only guard
reads the id attribute of the anonymous identity, which has none, so an
unauthenticated request raises an AttributeError instead of the 403
forbidden response, and the store is untouched. -/
theorem admin_routes_anonymous_raise (db : DB) (form : CreatePostForm)
    (today : String) (pid : Nat) :
    add_new_post db none form today =
      ⟨db, [], .raised (.attributeError "AnonymousUserMixin object has no attribute id")⟩ ∧
    edit_post db none pid form =
      ⟨db, [], .raised (.attributeError "AnonymousUserMixin object has no attribute id")⟩ :=
  ⟨rfl, rfl⟩

/-- C8: a delete-comment request by an authenticated identity that has
authored no comment makes the only_commenter query come back empty, and
the guard dereferences the absent row: an AttributeError, not a 403,
and the store is untouched. -/
theorem delete_comment_no_authored_raises (db : DB) (u : User) (cid pid : Nat)
    (h : ∀ c ∈ db.comments, c.comment_author_id ≠ u.id) :
    delete_comment db (some u) cid pid =
      ⟨db, [], .raised (.attributeError "NoneType object has no attribute comment_author_id")⟩ := by
  have hn : db.comments.find? (fun c => c.comment_author_id == u.id) = none := by
    rw [List.find?_eq_none]
    intro c hc
    simp [h c hc]
  simp [delete_comment, only_commenter, hn]

/-- C8 witness: user 2 never commented; the store holds one comment by
user 3; deleting it raises the AttributeError. -/
theorem delete_comment_no_authored_raises_witness :
    delete_comment ⟨[⟨2, "b", "p", "B"⟩], [], [⟨1, "x", 3, 1⟩]⟩
        (some ⟨2, "b", "p", "B"⟩) 1 1
      = ⟨⟨[⟨2, "b", "p", "B"⟩], [], [⟨1, "x", 3, 1⟩]⟩, [],
         .raised (.attributeError "NoneType object has no attribute comment_author_id")⟩ :=
  delete_comment_no_authored_raises ⟨[⟨2, "b", "p", "B"⟩], [], [⟨1, "x", 3, 1⟩]⟩
    ⟨2, "b", "p", "B"⟩ 1 1 (by decide)

/-- C6: a valid register submission whose email an existing User already
holds inserts no second User row, leaves the whole store unchanged, and
answers a redirect to the login page carrying the duplicate-email flash
message. -/
theorem register_duplicate_email (db : DB) (cu : Option User) (form : RegisterForm)
    (hv : form.validate_on_submit = true)
    (hdup : ∃ u ∈ db.users, u.email = form.email) :
    register db cu form =
      ⟨db, ["A user with that email already exists."], .ok (.redirectTo "login")⟩ := by
  have hs : (db.users.find? (fun v => v.email == form.email)).isSome := by
    apply find?_isSome_of_exists
    obtain ⟨u, hu, he⟩ := hdup
    exact ⟨u, hu, by simp [he]⟩
  obtain ⟨v, hvf⟩ := Option.isSome_iff_exists.mp hs
  simp [register, hv, hvf]

/-- C6 witness: registering again with the stored email of user 1
changes nothing and redirects to login with the message. -/
theorem register_duplicate_email_witness :
    register ⟨[⟨1, "a", "p", "A"⟩], [], []⟩ none ⟨true, "a", "pw", "Z"⟩
      = ⟨⟨[⟨1, "a", "p", "A"⟩], [], []⟩,
         ["A user with that email already exists."], .ok (.redirectTo "login")⟩ :=
  register_duplicate_email ⟨[⟨1, "a", "p", "A"⟩], [], []⟩ none ⟨true, "a", "pw", "Z"⟩
    (by decide) ⟨⟨1, "a", "p", "A"⟩, by decide, rfl⟩

/-- C7: a valid comment submission on an existing post while no identity
is authenticated inserts no Comment row — the store is unchanged — and
answers a redirect to the login page with the login-required flash
message. -/
theorem show_post_unauthenticated_comment (db : DB) (pid : Nat) (form : CommentForm)
    (hv : form.validate_on_submit = true) (hex : ∃ p ∈ db.posts, p.id = pid) :
    show_post db none pid form =
      ⟨db, ["You must login or register to comment."], .ok (.redirectTo "login")⟩ := by
  have hs : (db.posts.find? (fun p => p.id == pid)).isSome := by
    apply find?_isSome_of_exists
    obtain ⟨p, hp, hid⟩ := hex
    exact ⟨p, hp, by simp [hid]⟩
  obtain ⟨q, hq⟩ := Option.isSome_iff_exists.mp hs
  simp [show_post, hv, hq]

/-- C7 witness: an anonymous comment on post 1 leaves the store as it
was and redirects to login. -/
theorem show_post_unauthenticated_comment_witness :
    show_post ⟨[], [⟨1, "T", "S", "D", "B", 1, "u"⟩], []⟩ none 1 ⟨true, "hi"⟩
      = ⟨⟨[], [⟨1, "T", "S", "D", "B", 1, "u"⟩], []⟩,
         ["You must login or register to comment."], .ok (.redirectTo "login")⟩ :=
  show_post_unauthenticated_comment ⟨[], [⟨1, "T", "S", "D", "B", 1, "u"⟩], []⟩ 1
    ⟨true, "hi"⟩ (by decide) ⟨⟨1, "T", "S", "D", "B", 1, "u"⟩, by decide, rfl⟩

/-- C2: a delete-post request on an existing post removes exactly the
rows with that id from the posts table — whoever the caller is,
anonymous included — touches no other table, and is never refused with
the 403 forbidden response: no authorization predicate guards the
route. -/
theorem delete_post_unguarded (db : DB) (cu : Option User) (pid : Nat)
    (hex : ∃ p ∈ db.posts, p.id = pid) :
    (delete_post db cu pid).db.posts = db.posts.filter (fun p => p.id != pid) ∧
    (∀ p ∈ (delete_post db cu pid).db.posts, p.id ≠ pid) ∧
    (delete_post db cu pid).outcome ≠ .ok (.aborted 403) ∧
    (delete_post db cu pid).db.users = db.users ∧
    (delete_post db cu pid).db.comments = db.comments := by
  have hs : (db.posts.find? (fun p => p.id == pid)).isSome := by
    apply find?_isSome_of_exists
    obtain ⟨p, hp, hid⟩ := hex
    exact ⟨p, hp, by simp [hid]⟩
  obtain ⟨q, hq⟩ := Option.isSome_iff_exists.mp hs
  refine ⟨by simp [delete_post, hq], ?_, by simp [delete_post, hq], by simp [delete_post, hq],
    by simp [delete_post, hq]⟩
  intro p hp
  simp only [delete_post, hq] at hp
  have := (List.mem_filter.mp hp).2
  simpa using this

/-- C2 witness: an anonymous caller deletes the only post; the posts
table ends empty. -/
theorem delete_post_unguarded_witness :
    (delete_post ⟨[], [⟨1, "T", "S", "D", "B", 1, "u"⟩], []⟩ none 1).db.posts = [] :=
  ((delete_post_unguarded ⟨[], [⟨1, "T", "S", "D", "B", 1, "u"⟩], []⟩ none 1
      ⟨⟨1, "T", "S", "D", "B", 1, "u"⟩, by decide, rfl⟩).1).trans (by decide)

/-- C10: on an existing post the delete-post handler commits the
deletion and then calls redirect with the unexpected logged_in keyword
argument: the posts table no longer holds the row, yet the outcome is
the raised TypeError, not the redirect — the mutation is not atomic
with the response. -/
theorem delete_post_commit_before_raise (db : DB) (cu : Option User) (pid : Nat)
    (hex : ∃ p ∈ db.posts, p.id = pid) :
    (delete_post db cu pid).db.posts = db.posts.filter (fun p => p.id != pid) ∧
    (delete_post db cu pid).outcome =
      .raised (.typeError "redirect got an unexpected keyword argument logged_in") := by
  have hs : (db.posts.find? (fun p => p.id == pid)).isSome := by
    apply find?_isSome_of_exists
    obtain ⟨p, hp, hid⟩ := hex
    exact ⟨p, hp, by simp [hid]⟩
  obtain ⟨q, hq⟩ := Option.isSome_iff_exists.mp hs
  exact ⟨by simp [delete_post, hq], by simp [delete_post, hq]⟩

/-- C10 witness: deleting post 1 empties the posts table and raises the
TypeError instead of redirecting. -/
theorem delete_post_commit_before_raise_witness :
    (delete_post ⟨[], [⟨1, "T", "S", "D", "B", 1, "u"⟩], []⟩ none 1).outcome =
      .raised (.typeError "redirect got an unexpected keyword argument logged_in") :=
  (delete_post_commit_before_raise ⟨[], [⟨1, "T", "S", "D", "B", 1, "u"⟩], []⟩ none 1
      ⟨⟨1, "T", "S", "D", "B", 1, "u"⟩, by decide, rfl⟩).2

/-- C1 counterexample: user 2 authored only comment 1; comment 2 belongs
to user 3. User 2 requests deletion of comment 2: the guard selects a
comment by author id alone, so the request is not refused — it
redirects and comment 2 is gone — although the requester is not the
author of the comment being deleted. -/
theorem delete_comment_nonowner_succeeds :
    (delete_comment
        ⟨[⟨1, "a", "p", "A"⟩, ⟨2, "b", "p", "B"⟩, ⟨3, "c", "p", "C"⟩],
         [⟨1, "T", "S", "May 01, 2020", "Body", 1, "http://i"⟩],
         [⟨1, "first", 2, 1⟩, ⟨2, "second", 3, 1⟩]⟩
        (some ⟨2, "b", "p", "B"⟩) 2 1).outcome ≠ .ok (.aborted 403) ∧
    (delete_comment
        ⟨[⟨1, "a", "p", "A"⟩, ⟨2, "b", "p", "B"⟩, ⟨3, "c", "p", "C"⟩],
         [⟨1, "T", "S", "May 01, 2020", "Body", 1, "http://i"⟩],
         [⟨1, "first", 2, 1⟩, ⟨2, "second", 3, 1⟩]⟩
        (some ⟨2, "b", "p", "B"⟩) 2 1).db.comments = [⟨1, "first", 2, 1⟩] ∧
    (⟨2, "second", 3, 1⟩ : Comment).comment_author_id ≠ (⟨2, "b", "p", "B"⟩ : User).id := by
  decide

/-- C1 (amended): the only_commenter guard does not compare the
requester against the comment being deleted; it only requires the
requester to have authored some comment. Any authenticated identity
with at least one authored comment — the comment's own author in
particular, but any other commenter too — gets the deletion through,
and the deletion removes exactly the rows of the comments table with
the requested id (one row, ids being primary keys) and nothing else. -/
theorem delete_comment_any_commenter (db : DB) (u : User) (cid pid : Nat)
    (hmine : ∃ c ∈ db.comments, c.comment_author_id = u.id)
    (htarget : ∃ c ∈ db.comments, c.id = cid)
    (hnd : (db.comments.map Comment.id).Nodup) :
    (delete_comment db (some u) cid pid).outcome = .ok (.redirectTo "show_post") ∧
    (delete_comment db (some u) cid pid).db.comments
      = db.comments.filter (fun c => c.id != cid) ∧
    (delete_comment db (some u) cid pid).db.comments.length + 1
      = db.comments.length ∧
    (delete_comment db (some u) cid pid).db.users = db.users ∧
    (delete_comment db (some u) cid pid).db.posts = db.posts := by
  have hs1 : (db.comments.find? (fun c => c.comment_author_id == u.id)).isSome := by
    apply find?_isSome_of_exists
    obtain ⟨m, hm, hma⟩ := hmine
    exact ⟨m, hm, by simp [hma]⟩
  obtain ⟨c0, hc0⟩ := Option.isSome_iff_exists.mp hs1
  have hown : c0.comment_author_id = u.id := by
    have := List.find?_some hc0
    simpa using this
  have hs2 : (db.comments.find? (fun c => c.id == cid)).isSome := by
    apply find?_isSome_of_exists
    obtain ⟨t, ht, hti⟩ := htarget
    exact ⟨t, ht, by simp [hti]⟩
  obtain ⟨t0, ht0⟩ := Option.isSome_iff_exists.mp hs2
  have hlen := length_filter_ne_id db.comments cid hnd htarget
  refine ⟨?_, ?_, ?_, ?_, ?_⟩ <;>
    simp [delete_comment, only_commenter, hc0, hown, ht0, hlen]

/-- C1 witness for the amended claim: user 2 deletes its own comment 1
out of a two-comment table; exactly that row disappears. -/
theorem delete_comment_any_commenter_witness :
    (delete_comment
        ⟨[⟨2, "b", "p", "B"⟩, ⟨3, "c", "p", "C"⟩],
         [⟨1, "T", "S", "May 01, 2020", "Body", 1, "http://i"⟩],
         [⟨1, "first", 2, 1⟩, ⟨2, "second", 3, 1⟩]⟩
        (some ⟨2, "b", "p", "B"⟩) 1 1).db.comments = [⟨2, "second", 3, 1⟩] :=
  ((delete_comment_any_commenter
      ⟨[⟨2, "b", "p", "B"⟩, ⟨3, "c", "p", "C"⟩],
       [⟨1, "T", "S", "May 01, 2020", "Body", 1, "http://i"⟩],
       [⟨1, "first", 2, 1⟩, ⟨2, "second", 3, 1⟩]⟩
      ⟨2, "b", "p", "B"⟩ 1 1
      ⟨⟨1, "first", 2, 1⟩, by decide, rfl⟩
      ⟨⟨1, "first", 2, 1⟩, by decide, rfl⟩
      (by decide)).2.1).trans (by decide)

/-- C5 counterexample: the same identity sends the same valid edit
submission to two stores that differ only in the stored date of post 1;
the resulting dates differ — each equals its pre-edit stored value — so
the date is not replaced by anything submitted (the edit form carries
no date field and the handler never assigns the date column). -/
theorem edit_post_keeps_stored_date :
    ((edit_post ⟨[⟨1, "a", "p", "A"⟩], [⟨1, "T", "S", "May 01, 2020", "B", 1, "http://i"⟩], []⟩
        (some ⟨1, "a", "p", "A"⟩) 1 ⟨true, "T2", "S2", "http://img2", "B2"⟩).db.posts.map
          BlogPost.date) = ["May 01, 2020"] ∧
    ((edit_post ⟨[⟨1, "a", "p", "A"⟩], [⟨1, "T", "S", "June 02, 2021", "B", 1, "http://i"⟩], []⟩
        (some ⟨1, "a", "p", "A"⟩) 1 ⟨true, "T2", "S2", "http://img2", "B2"⟩).db.posts.map
          BlogPost.date) = ["June 02, 2021"] := by
  decide

/-- C5 (amended): a successful edit-post request on an existing post
replaces the post's title, subtitle, image URL and body with the
submitted values and reassigns the author to the editing identity; the
post's id and its date keep their stored values, every other post
survives untouched, and the users and comments tables are unchanged. -/
theorem edit_post_fields_and_frame (db : DB) (u : User) (hu : u.id = 1)
    (pid : Nat) (form : CreatePostForm) (hv : form.validate_on_submit = true)
    (post : BlogPost) (hfind : db.posts.find? (fun p => p.id == pid) = some post) :
    (edit_post db (some u) pid form).outcome = .ok (.redirectTo "show_post") ∧
    (edit_post db (some u) pid form).db.posts.find? (fun p => p.id == pid)
      = some { post with title := form.title, subtitle := form.subtitle,
                         img_url := form.img_url, author_id := u.id, body := form.body } ∧
    (∀ q ∈ db.posts, q.id ≠ pid → q ∈ (edit_post db (some u) pid form).db.posts) ∧
    (edit_post db (some u) pid form).db.users = db.users ∧
    (edit_post db (some u) pid form).db.comments = db.comments := by
  refine ⟨?_, ?_, ?_, ?_, ?_⟩
  · simp [edit_post, admin_only, hu, hfind, hv]
  · have hmap := find?_map_update db.posts pid post
      (fun p => { p with title := form.title, subtitle := form.subtitle,
                         img_url := form.img_url, author_id := u.id, body := form.body })
      (fun p => rfl) hfind
    simpa [edit_post, admin_only, hu, hfind, hv] using hmap
  · intro q hq hne
    have hmem := mem_map_update db.posts pid
      (fun p => { p with title := form.title, subtitle := form.subtitle,
                         img_url := form.img_url, author_id := u.id, body := form.body })
      q hq hne
    simpa [edit_post, admin_only, hu, hfind, hv] using hmem
  · simp [edit_post, admin_only, hu, hfind, hv]
  · simp [edit_post, admin_only, hu, hfind, hv]

/-- C5 witness for the amended claim: the administrator edits post 1 of
a two-post table; the edited row carries the submitted fields with the
stored id and date, and post 2 is untouched. -/
theorem edit_post_fields_and_frame_witness :
    (edit_post ⟨[⟨1, "a", "p", "A"⟩],
        [⟨1, "T", "S", "May 01, 2020", "B", 7, "http://i"⟩,
         ⟨2, "U", "V", "June 02, 2021", "C", 1, "http://j"⟩], []⟩
      (some ⟨1, "a", "p", "A"⟩) 1 ⟨true, "T2", "S2", "http://img2", "B2"⟩).db.posts.find?
        (fun p => p.id == 1)
      = some ⟨1, "T2", "S2", "May 01, 2020", "B2", 1, "http://img2"⟩ :=
  ((edit_post_fields_and_frame ⟨[⟨1, "a", "p", "A"⟩],
      [⟨1, "T", "S", "May 01, 2020", "B", 7, "http://i"⟩,
       ⟨2, "U", "V", "June 02, 2021", "C", 1, "http://j"⟩], []⟩
    ⟨1, "a", "p", "A"⟩ rfl 1 ⟨true, "T2", "S2", "http://img2", "B2"⟩ (by decide)
    ⟨1, "T", "S", "May 01, 2020", "B", 7, "http://i"⟩ rfl).2.1).trans (by decide)
